import Mathlib

/-!
Verification development for the batch media-conversion pipeline of the
repository (video2audio.py, audio_compresser.py, audio2text.py, soundext.py,
vid_compresser.py).  Every definition below is a shallow embedding of a
function of the Python source: the filesystem and the external encoder are
abstracted into explicit environment records, and each decision made by the
Python code (exit-code checks, file-existence checks, size checks, skip
logic, tallying) is reproduced branch by branch.
-/

/-! ## String helpers

Python string primitives used by the scripts, re-implemented over the
character list of a Lean string so that they compute by kernel reduction:
`strLower` models `str.lower()`, `pyStrip` models `str.strip()`, and
`strContainsSub` models the `in` substring test. -/

/-- Model of Python `str.lower()`: lowercase every character. -/
def strLower (s : String) : String :=
  ⟨s.data.map Char.toLower⟩

/-- Whitespace characters removed by Python `str.strip()`. -/
def isPySpace (c : Char) : Bool :=
  c = ' ' || c = '\t' || c = '\n' || c = '\x0d' || c = '\x0b' || c = '\x0c'

/-- Model of Python `str.strip()`: drop leading and trailing whitespace. -/
def pyStrip (s : String) : String :=
  ⟨((s.data.dropWhile isPySpace).reverse.dropWhile isPySpace).reverse⟩

/-- Does the pattern occur at the head of the character list? -/
def startsWithL : List Char → List Char → Bool
  | [], _ => true
  | _ :: _, [] => false
  | p :: ps, c :: cs => p == c && startsWithL ps cs

/-- Does the pattern occur anywhere in the character list? -/
def containsL (pat : List Char) : List Char → Bool
  | [] => startsWithL pat []
  | c :: cs => startsWithL pat (c :: cs) || containsL pat cs

/-- Model of Python substring membership `pat in s`. -/
def strContainsSub (s pat : String) : Bool :=
  containsL pat.data s.data

/-! ## External process outcomes

The scripts shell out to ffmpeg via `subprocess.run(..., timeout=...)`.
A run either completes with an exit code and captured stderr, exceeds the
timeout (`subprocess.TimeoutExpired`), or raises some other exception. -/

/-- Outcome of one `subprocess.run` invocation of the external tool. -/
inductive ProcResult where
  | completed (exitCode : Int) (stderr : String)
  | timedOut
  | raised (msg : String)
deriving DecidableEq

/-- Did the process complete with exit code 0? -/
def ProcResult.isExit0 : ProcResult → Bool
  | .completed c _ => c = 0
  | _ => false

/-! ## video2audio.py : VideoToAudioConverter -/

/-- The `SUPPORTED_VIDEO_FORMATS` set of `VideoToAudioConverter`
(video2audio.py lines 23-27). -/
def SUPPORTED_VIDEO_FORMATS : List String :=
  [".mp4", ".avi", ".mov", ".mkv", ".flv", ".wmv", ".webm",
   ".m4v", ".mpg", ".mpeg", ".3gp", ".mts", ".m2ts", ".ts",
   ".rm", ".rmvb", ".asf", ".vob", ".ogv", ".divx"]

/-- One entry of the `AUDIO_FORMATS` catalog (video2audio.py lines 30-67). -/
structure AudioFormat where
  ext : String
  codec : String
  args : List String
  bitrate : Option String
deriving DecidableEq

/-- The `AUDIO_FORMATS` catalog of `VideoToAudioConverter`
(video2audio.py lines 30-67), keyed by format name. -/
def AUDIO_FORMATS : List (String × AudioFormat) :=
  [("mp3", ⟨".mp3", "libmp3lame", ["-q:a", "2"], some ("192k")⟩),
   ("aac", ⟨".m4a", "aac", ["-b:a", "192k"], some ("192k")⟩),
   ("flac", ⟨".flac", "flac", ["-compression_level", "8"], none⟩),
   ("wav", ⟨".wav", "pcm_s16le", [], none⟩),
   ("opus", ⟨".opus", "libopus", ["-b:a", "128k"], some ("128k")⟩),
   ("ogg", ⟨".ogg", "libvorbis", ["-q:a", "5"], none⟩)]

/-- Abstraction of the filesystem state and external-tool behaviour seen by
one `convert_video_to_audio` call: whether the source video exists, whether
the destination already exists before the call, how the ffmpeg process ends,
and whether/with which size the destination exists after the call. -/
structure ConvEnv where
  videoExists : Bool
  audioExistsPre : Bool
  proc : ProcResult
  destExists : Bool
  destSize : Nat
deriving DecidableEq

/-- Shallow embedding of `VideoToAudioConverter.convert_video_to_audio`
(video2audio.py lines 160-269): input-existence check, skip-if-exists check
(when overwrite is disabled), format-catalog lookup, then classification of
the ffmpeg run: exit 0 with an existing non-empty destination is the only
success; exit 0 with a missing or empty destination, a non-zero exit, a
timeout, and any other exception are failures with the messages of the
source. -/
def convertVideoToAudio (audioFormat : String) (videoPath audioPath : String)
    (overwrite : Bool) (env : ConvEnv) : Bool × String :=
  if env.videoExists = false then
    (false, "视频文件不存在: " ++ videoPath)
  else if overwrite = false ∧ env.audioExistsPre = true then
    (false, "输出文件已存在: " ++ audioPath)
  else
    match AUDIO_FORMATS.lookup audioFormat with
    | none => (false, "不支持的音频格式: " ++ audioFormat)
    | some _ =>
      match env.proc with
      | .completed c stderr =>
        if c = 0 then
          if env.destExists = true ∧ 0 < env.destSize then
            (true, "转换成功")
          else
            (false, "转换后文件为空或不存在")
        else
          (false, "ffmpeg错误: " ++
            (if pyStrip stderr = "" then "未知错误" else pyStrip stderr))
      | .timedOut => (false, "转换超时 (超过1小时)")
      | .raised m => (false, "转换异常: " ++ m)

/-- An enumerated source file of `batch_convert`: directory components
relative to the input root, base name without extension (`Path.stem`), and
extension including the dot (`Path.suffix`). -/
structure VideoFile where
  dirs : List String
  stem : String
  ext : String
deriving DecidableEq

/-- Destination-path computation of `batch_convert` (video2audio.py lines
362-371): with `keep_structure` the relative path is mirrored under the
output root with the profile extension substituted; otherwise the output is
flattened into the output root as stem plus profile extension.  A path is a
list of components. -/
def destPath (outRoot : List String) (keep : Bool) (fmtExt : String)
    (f : VideoFile) : List String :=
  if keep = true then outRoot ++ f.dirs ++ [f.stem ++ fmtExt]
  else outRoot ++ [f.stem ++ fmtExt]

/-- Job-building loop of `batch_convert` (video2audio.py lines 360-391):
walk the enumerated files in order; when overwrite is disabled and the
destination already exists, count the file as skipped, otherwise append a
task.  Returns (skipped count, task list in enumeration order). -/
def buildJobs (outRoot : List String) (keep : Bool) (fmtExt : String)
    (overwrite : Bool) (destEx : List String → Bool) :
    List VideoFile → Nat × List VideoFile
  | [] => (0, [])
  | f :: fs =>
    let rest := buildJobs outRoot keep fmtExt overwrite destEx fs
    if overwrite = false ∧ destEx (destPath outRoot keep fmtExt f) = true then
      (rest.1 + 1, rest.2)
    else
      (rest.1, f :: rest.2)

/-- Result tallying of `batch_convert` (video2audio.py lines 393-446): each
task contributes exactly one increment, to the success counter when its
conversion returns True and to the failed counter otherwise.  Returns
(success, failed). -/
def seqTally (oracle : VideoFile → Bool × String) :
    List VideoFile → Nat × Nat
  | [] => (0, 0)
  | j :: js =>
    let rest := seqTally oracle js
    if (oracle j).1 = true then (rest.1 + 1, rest.2)
    else (rest.1, rest.2 + 1)

/-- The sequence of per-task conversion results produced by the
single-threaded branch of `batch_convert` (video2audio.py lines 431-446),
which invokes the converter on the tasks one by one in enumeration order. -/
def seqTrace (oracle : VideoFile → Bool × String) :
    List VideoFile → List (Bool × String)
  | [] => []
  | j :: js => oracle j :: seqTrace oracle js

/-- The `stats` accumulator of `batch_convert` (video2audio.py lines
346-355): `no_audio` is initialized to 0 and never incremented anywhere in
the function. -/
structure RunStats where
  total : Nat
  success : Nat
  failed : Nat
  skipped : Nat
  no_audio : Nat
deriving DecidableEq

/-- Shallow embedding of the accounting of `batch_convert` (video2audio.py
lines 346-454) over an already-enumerated file list: build the job list
(skipping existing destinations when overwrite is disabled), tally each
job's conversion outcome, and report the counters. -/
def batchStats (outRoot : List String) (keep : Bool) (fmtExt : String)
    (overwrite : Bool) (destEx : List String → Bool)
    (oracle : VideoFile → Bool × String) (files : List VideoFile) : RunStats :=
  let built := buildJobs outRoot keep fmtExt overwrite destEx files
  let tally := seqTally oracle built.2
  { total := files.length, success := tally.1, failed := tally.2,
    skipped := built.1, no_audio := 0 }

/-- A directory entry as seen by the enumerators: whether it is a regular
file, and its extension including the dot. -/
structure FsEntry where
  isFile : Bool
  suffix : String
deriving DecidableEq

/-- File selection of `batch_convert` (video2audio.py lines 320-332): an
entry is a candidate when it is a regular file and its lowercased suffix is
in `SUPPORTED_VIDEO_FORMATS`.  (The recursive branch applies the same
suffix test to entries that `os.walk` already reports as files.) -/
def selectVideoFile (e : FsEntry) : Bool :=
  e.isFile && SUPPORTED_VIDEO_FORMATS.contains (strLower e.suffix)

/-! ## vid_compresser.py and audio_compresser.py enumerators -/

/-- The literal `video_extensions` set of `compress_mp4_files`
(vid_compresser.py line 25). -/
def vidCompressExtensions : List String :=
  [".mp4", ".MP4", ".Mp4"]

/-- File selection of `compress_mp4_files` (vid_compresser.py lines 28-32):
the extension is compared literally (no lowercasing) against the three
spellings in `video_extensions`. -/
def selectVidCompressFile (e : FsEntry) : Bool :=
  e.isFile && vidCompressExtensions.contains e.suffix

/-- The `audio_extensions` set of `compress_with_opus_then_mp3`
(audio_compresser.py lines 23-26). -/
def audioCompressExtensions : List String :=
  [".mp3", ".wav", ".flac", ".m4a", ".aac",
   ".ogg", ".opus", ".wma", ".amr", ".aiff", ".au"]

/-- File selection of `compress_with_opus_then_mp3` (audio_compresser.py
lines 39-45): the lowercased extension must be in `audio_extensions` and
the entry must be a regular file. -/
def selectAudioCompressFile (e : FsEntry) : Bool :=
  audioCompressExtensions.contains (strLower e.suffix) && e.isFile

/-! ## audio_compresser.py : two_stage_compress -/

/-- Message tags of `two_stage_compress`, one per return site; messages
that embed computed numbers carry those numbers as fields ("成功" carries
the final and original sizes whose ratio is printed). -/
inductive TSMsg where
  | fileMissing
  | opusFailed (diag : String)
  | opusNotGenerated
  | mp3Failed (diag : String)
  | successSizes (finalSize origSize : Nat)
  | finalMissing
  | timedOut
  | errored (diag : String)
deriving DecidableEq

/-- Abstraction of the filesystem state and the two ffmpeg invocations seen
by one `two_stage_compress` call: input existence and size, the stage-1
(Opus) process outcome and resulting temp-file state, the stage-2 (MP3)
process outcome and resulting destination state. -/
structure TSEnv where
  inputExists : Bool
  originalSize : Nat
  stage1 : ProcResult
  opusExists : Bool
  opusSize : Nat
  stage2 : ProcResult
  outExists : Bool
  outSize : Nat
deriving DecidableEq

/-- Result of one `two_stage_compress` call, together with whether the
intermediate Opus temp file is left on disk when the call returns. -/
structure TSOutcome where
  ok : Bool
  msg : TSMsg
  tempRemains : Bool
deriving DecidableEq

/-- Shallow embedding of `two_stage_compress` (audio_compresser.py lines
64-180).  Branches in source order: missing input (returned before the temp
file is created); stage-1 timeout/exception, non-zero exit, or missing or
empty Opus temp file; stage-2 timeout/exception or non-zero exit; then the
final check, which tests only `os.path.exists(output_path)` (no size
check): an existing destination is a success and a missing one a failure.
The temp file is unlinked in a `finally` block, so on every path past its
creation `tempRemains` is false (and on the early-return path it was never
created). -/
def twoStageCompress (env : TSEnv) : TSOutcome :=
  if env.inputExists = false then ⟨false, .fileMissing, false⟩
  else
    match env.stage1 with
    | .timedOut => ⟨false, .timedOut, false⟩
    | .raised m => ⟨false, .errored m, false⟩
    | .completed c1 d1 =>
      if c1 ≠ 0 then ⟨false, .opusFailed d1, false⟩
      else if env.opusExists = false ∨ env.opusSize = 0 then
        ⟨false, .opusNotGenerated, false⟩
      else
        match env.stage2 with
        | .timedOut => ⟨false, .timedOut, false⟩
        | .raised m => ⟨false, .errored m, false⟩
        | .completed c2 d2 =>
          if c2 ≠ 0 then ⟨false, .mp3Failed d2, false⟩
          else if env.outExists = true then
            ⟨true, .successSizes env.outSize env.originalSize, false⟩
          else ⟨false, .finalMissing, false⟩

/-! ## audio2text.py : per-file processing in main -/

/-- State of one file's processing in the loop of `main` (audio2text.py
lines 366-412): pre-existing markdown, extraction success, the extracted
temp audio file's state, the recognized text, whether `save_as_markdown`
succeeds, and the `--keep-audio` flag. -/
structure TransJob where
  mdExistsPre : Bool
  extractOk : Bool
  audioExistsPost : Bool
  audioSize : Nat
  text : String
  saveOk : Bool
  keepAudio : Bool
deriving DecidableEq

/-- Result of processing one file in `main` of audio2text.py: whether a
markdown artifact was written, whether the extracted temp audio file is
left on disk, and whether the `processed` counter was incremented. -/
structure TransOutcome where
  mdWritten : Bool
  audioRemains : Bool
  processedInc : Bool
deriving DecidableEq

/-- Shallow embedding of one iteration of the file loop in `main`
(audio2text.py lines 366-412).  Branches in source order: skip when the
markdown already exists (nothing extracted); `continue` when extraction
fails, when the extracted audio is missing or empty, and when the text is
empty or its stripped length is below 5 — each of these `continue`s jumps
past the step-4 cleanup, so whatever audio file exists at that point
remains on disk; otherwise save the markdown and then remove the audio
unless `--keep-audio` was given. -/
def processTransFile (j : TransJob) : TransOutcome :=
  if j.mdExistsPre = true then ⟨false, false, false⟩
  else if j.extractOk = false then ⟨false, j.audioExistsPost, false⟩
  else if j.audioExistsPost = false ∨ j.audioSize = 0 then
    ⟨false, j.audioExistsPost, false⟩
  else if j.text = "" ∨ (pyStrip j.text).length < 5 then ⟨false, true, false⟩
  else ⟨j.saveOk, j.keepAudio, j.saveOk⟩

/-! ## soundext.py : per-file processing in process_mp4_files -/

/-- State of one file's processing in `process_mp4_files` (soundext.py
lines 165-202): pre-existing markdown, extraction success, the extracted
audio file's existence, the recognized text, whether saving succeeds, and
the `--keep-audio` flag. -/
structure SEJob where
  mdExistsPre : Bool
  extractOk : Bool
  audioExistsPost : Bool
  text : String
  saveOk : Bool
  keepAudio : Bool
deriving DecidableEq

/-- Result of processing one file in `process_mp4_files` of soundext.py. -/
structure SEOutcome where
  mdWritten : Bool
  audioRemains : Bool
deriving DecidableEq

/-- Shallow embedding of one iteration of the file loop in
`process_mp4_files` (soundext.py lines 165-202).  Branches in source order:
skip when the markdown exists; `continue` when extraction fails; `continue`
when the recognized text is empty (`if not text` — this is the only length
test: any non-empty text, however short, proceeds); otherwise save the
markdown, then remove the audio unless `--keep-audio` was given. -/
def soundextProcessFile (j : SEJob) : SEOutcome :=
  if j.mdExistsPre = true then ⟨false, false⟩
  else if j.extractOk = false then ⟨false, j.audioExistsPost⟩
  else if j.text = "" then ⟨false, j.audioExistsPost⟩
  else ⟨j.saveOk, j.keepAudio && j.audioExistsPost⟩

/-! ## Helper lemmas -/

/-- The success counter of the tally counts exactly the jobs whose
conversion returns True. -/
theorem seqTally_fst (oracle : VideoFile → Bool × String)
    (l : List VideoFile) :
    (seqTally oracle l).1 = l.countP (fun j => (oracle j).1) := by
  induction l with
  | nil => rfl
  | cons j js ih =>
    simp only [seqTally, List.countP_cons]
    cases h : (oracle j).1 <;> simp [h, ih]

/-- The failed counter of the tally counts exactly the jobs whose
conversion returns False. -/
theorem seqTally_snd (oracle : VideoFile → Bool × String)
    (l : List VideoFile) :
    (seqTally oracle l).2 = l.countP (fun j => !(oracle j).1) := by
  induction l with
  | nil => rfl
  | cons j js ih =>
    simp only [seqTally, List.countP_cons]
    cases h : (oracle j).1 <;> simp [h, ih]

/-- Each job contributes exactly one increment: success plus failed equals
the number of jobs. -/
theorem seqTally_add (oracle : VideoFile → Bool × String)
    (l : List VideoFile) :
    (seqTally oracle l).1 + (seqTally oracle l).2 = l.length := by
  induction l with
  | nil => rfl
  | cons j js ih =>
    simp only [seqTally, List.length_cons]
    cases h : (oracle j).1 <;> simp [h] <;> omega

/-- Tallying a concatenation adds the two tallies componentwise. -/
theorem seqTally_append (oracle : VideoFile → Bool × String)
    (l1 l2 : List VideoFile) :
    seqTally oracle (l1 ++ l2) =
      ((seqTally oracle l1).1 + (seqTally oracle l2).1,
       (seqTally oracle l1).2 + (seqTally oracle l2).2) := by
  apply Prod.ext_iff.mpr
  constructor
  · simp [seqTally_fst, List.countP_append]
  · simp [seqTally_snd, List.countP_append]

/-- Skipped plus queued jobs account for every enumerated file. -/
theorem buildJobs_add (outRoot : List String) (keep : Bool) (fmtExt : String)
    (overwrite : Bool) (destEx : List String → Bool)
    (files : List VideoFile) :
    (buildJobs outRoot keep fmtExt overwrite destEx files).1 +
      (buildJobs outRoot keep fmtExt overwrite destEx files).2.length =
      files.length := by
  induction files with
  | nil => rfl
  | cons f fs ih =>
    simp only [buildJobs, List.length_cons]
    split <;> simp <;> omega

/-- With overwrite disabled, a file whose destination already exists is
skipped, never queued: the queued jobs are exactly the files whose
destination does not exist yet, and the skipped count is the number of
files whose destination exists. -/
theorem buildJobs_no_overwrite (outRoot : List String) (keep : Bool)
    (fmtExt : String) (destEx : List String → Bool)
    (files : List VideoFile) :
    buildJobs outRoot keep fmtExt false destEx files =
      (files.countP (fun f => destEx (destPath outRoot keep fmtExt f)),
       files.filter (fun f => !destEx (destPath outRoot keep fmtExt f))) := by
  induction files with
  | nil => rfl
  | cons f fs ih =>
    simp only [buildJobs, ih, List.countP_cons, List.filter_cons]
    cases h : destEx (destPath outRoot keep fmtExt f) <;> simp [h]

/-- Right cancellation for string concatenation. -/
theorem strAppendCancel (a b c : String) (h : a ++ c = b ++ c) : a = b := by
  have hd : a.data ++ c.data = b.data ++ c.data := by
    simpa [String.data_append] using congrArg String.data h
  exact String.ext (List.append_cancel_right hd)

/-- Appending a final component to a path is injective. -/
theorem concatCompCancel (l1 l2 : List String) (a b : String)
    (h : l1 ++ [a] = l2 ++ [b]) : l1 = l2 ∧ a = b := by
  have := List.append_inj' h (by simp)
  exact ⟨this.1, by simpa using this.2⟩

/-! ## Claim theorems -/

/-- C1 counterexample: in `two_stage_compress`, when both ffmpeg stages
exit with code 0 and the final MP3 exists but has size 0, the job is
classified a success — contradicting the claim that exit code 0 with a
zero-length destination is always a failure. -/
theorem c1_counterexample :
    (twoStageCompress
        ⟨true, 1000, .completed 0 "", true, 10, .completed 0 "", true, 0⟩).ok
      = true ∧
    (twoStageCompress
        ⟨true, 1000, .completed 0 "", true, 10, .completed 0 "", true, 0⟩).msg
      = .successSizes 0 1000 := by
  decide

/-- C1 amended: `convert_video_to_audio` returns success exactly when the
pre-checks pass, ffmpeg exits 0, and the destination exists with size
greater than zero; `two_stage_compress` returns success exactly when both
stages exit 0, the intermediate Opus file exists with nonzero size, and the
final MP3 merely exists — its size is not checked, so an existing
zero-length final file is still classified a success. -/
theorem c1_success_characterization :
    (∀ (fmt vp ap : String) (ow : Bool) (env : ConvEnv),
      (convertVideoToAudio fmt vp ap ow env).1 = true ↔
        (env.videoExists = true ∧ (ow = true ∨ env.audioExistsPre = false) ∧
         (AUDIO_FORMATS.lookup fmt).isSome = true ∧
         env.proc.isExit0 = true ∧ env.destExists = true ∧ 0 < env.destSize))
    ∧ (∀ env : TSEnv,
      (twoStageCompress env).ok = true ↔
        (env.inputExists = true ∧ env.stage1.isExit0 = true ∧
         env.opusExists = true ∧ 0 < env.opusSize ∧
         env.stage2.isExit0 = true ∧ env.outExists = true)) := by
  constructor
  · intro fmt vp ap ow env
    rcases env with ⟨ve, ae, proc, de, ds⟩
    rcases proc with ⟨c, e⟩ | _ | m <;>
      cases ve <;> cases ae <;> cases ow <;> cases de <;>
      rcases h : AUDIO_FORMATS.lookup fmt with _ | g <;>
      simp [convertVideoToAudio, ProcResult.isExit0, h] <;>
      split_ifs <;> simp_all
  · intro env
    rcases env with ⟨ie, os, s1, oe, osz, s2, oute, outs⟩
    rcases s1 with ⟨c1, d1⟩ | _ | m1 <;> rcases s2 with ⟨c2, d2⟩ | _ | m2 <;>
      cases ie <;> cases oe <;> cases oute <;>
      simp [twoStageCompress, ProcResult.isExit0] <;>
      split_ifs <;> simp_all <;> omega

/-- C2: with overwrite disabled, when every enumerated file's destination
already exists, `batch_convert` queues no task (zero external-tool
invocations) and reports skipped equal to total. -/
theorem c2_skip_existing_rerun :
    ∀ (outRoot : List String) (keep : Bool) (fmtExt : String)
      (destEx : List String → Bool) (oracle : VideoFile → Bool × String)
      (files : List VideoFile),
      (∀ f ∈ files, destEx (destPath outRoot keep fmtExt f) = true) →
      (buildJobs outRoot keep fmtExt false destEx files).2 = [] ∧
      (batchStats outRoot keep fmtExt false destEx oracle files).skipped =
        (batchStats outRoot keep fmtExt false destEx oracle files).total := by
  intro outRoot keep fmtExt destEx oracle files hall
  have hb := buildJobs_no_overwrite outRoot keep fmtExt destEx files
  have hjobs : (buildJobs outRoot keep fmtExt false destEx files).2 = [] := by
    rw [hb]
    simp only [List.filter_eq_nil_iff]
    intro f hf
    simp [hall f hf]
  refine ⟨hjobs, ?_⟩
  simp only [batchStats, hjobs, seqTally, RunStats.mk.injEq]
  rw [hb]
  simpa using List.countP_eq_length.mpr hall

/-- C2 witness: a concrete two-file run with overwrite disabled and both
destinations present yields no task and skipped equal to total. -/
theorem c2_witness :
    (buildJobs (["out"]) false (".mp3") false (fun _ => true)
        [⟨[], "a", ".mp4"⟩, ⟨[], "b", ".mp4"⟩]).2 = [] ∧
    (batchStats (["out"]) false (".mp3") false (fun _ => true)
        (fun _ => (true, "ok"))
        [⟨[], "a", ".mp4"⟩, ⟨[], "b", ".mp4"⟩]).skipped =
      (batchStats (["out"]) false (".mp3") false (fun _ => true)
        (fun _ => (true, "ok"))
        [⟨[], "a", ".mp4"⟩, ⟨[], "b", ".mp4"⟩]).total :=
  c2_skip_existing_rerun _ _ _ _ _ _ (fun _ _ => rfl)

/-- C3 counterexample: `process_mp4_files` in soundext.py writes the
markdown artifact for a recognized text of 3 characters (below the claimed
minimum of 5): it only rejects empty text. -/
theorem c3_counterexample :
    (soundextProcessFile ⟨false, true, true, "abc", true, false⟩).mdWritten
      = true ∧
    (pyStrip ("abc")).length < 5 := by
  decide

/-- C3 amended: in audio2text.py, a recognized text whose stripped length
is below 5 is never saved as markdown and never counted as processed; in
soundext.py the only rejection is empty text — any non-empty text, however
short, is written as markdown (when saving succeeds). -/
theorem c3_short_text_markdown :
    (∀ j : TransJob, (pyStrip j.text).length < 5 →
      (processTransFile j).mdWritten = false ∧
      (processTransFile j).processedInc = false)
    ∧ (∀ j : SEJob, j.mdExistsPre = false → j.extractOk = true →
        j.text ≠ "" → (soundextProcessFile j).mdWritten = j.saveOk) := by
  constructor
  · intro j h
    simp only [processTransFile]
    split_ifs <;> simp_all
  · intro j h1 h2 h3
    simp [soundextProcessFile, h1, h2, h3]

/-- C3 witness: a 3-character text in audio2text.py yields no markdown and
no processed increment; an 11-character text in soundext.py is written. -/
theorem c3_witness :
    ((processTransFile ⟨false, true, true, 100, "abc", true, false⟩).mdWritten
        = false ∧
      (processTransFile
        ⟨false, true, true, 100, "abc", true, false⟩).processedInc = false) ∧
    (soundextProcessFile
        ⟨false, true, true, "hello there", true, false⟩).mdWritten = true :=
  ⟨c3_short_text_markdown.1 _ (by decide),
   c3_short_text_markdown.2 ⟨false, true, true, "hello there", true, false⟩
     rfl rfl (by decide)⟩

/-- C4 counterexample: in audio2text.py, a job whose recognized text is too
short takes the `continue` before the step-4 cleanup, so the extracted
temp audio file is left on disk even though keep-audio was not requested —
contradicting the claim that the staging file is removed on every exit
path. -/
theorem c4_counterexample :
    (processTransFile ⟨false, true, true, 100, "xy", true, false⟩).audioRemains
      = true ∧
    (⟨false, true, true, 100, "xy", true, false⟩ : TransJob).keepAudio
      = false := by
  decide

/-- C4 amended: the two-stage transcode's intermediate Opus file is removed
on every exit path (guaranteed by the `finally` block); the transcription
scripts remove the extracted temp audio only on jobs that reach the cleanup
step — a job that proceeds past extraction to a valid audio file and a
usable text (non-empty, and in audio2text.py at least 5 stripped
characters) cleans up when keep-audio is off, while earlier `continue`
paths leave the file behind. -/
theorem c4_cleanup :
    (∀ env : TSEnv, (twoStageCompress env).tempRemains = false)
    ∧ (∀ j : TransJob, j.keepAudio = false → j.mdExistsPre = false →
        j.extractOk = true → j.audioExistsPost = true → 0 < j.audioSize →
        ¬(j.text = "" ∨ (pyStrip j.text).length < 5) →
        (processTransFile j).audioRemains = false)
    ∧ (∀ j : SEJob, j.keepAudio = false → j.mdExistsPre = false →
        j.extractOk = true → j.text ≠ "" →
        (soundextProcessFile j).audioRemains = false) := by
  refine ⟨?_, ?_, ?_⟩
  · intro env
    rcases env with ⟨ie, os, s1, oe, osz, s2, oute, outs⟩
    rcases s1 with ⟨c1, d1⟩ | _ | m1 <;> rcases s2 with ⟨c2, d2⟩ | _ | m2 <;>
      simp only [twoStageCompress] <;> split_ifs <;> rfl
  · intro j h1 h2 h3 h4 h5 h6
    simp [processTransFile, h1, h2, h3, h4, h6, Nat.pos_iff_ne_zero.mp h5]
  · intro j h1 h2 h3 h4
    simp [soundextProcessFile, h1, h2, h3, h4]

/-- C4 witness: concrete instances of each guaranteed-cleanup path. -/
theorem c4_witness :
    (twoStageCompress
        ⟨true, 500, .completed 0 "", true, 7, .completed 0 "", true, 3⟩).tempRemains
      = false ∧
    (processTransFile
        ⟨false, true, true, 50, "hello world", true, false⟩).audioRemains
      = false ∧
    (soundextProcessFile ⟨false, true, true, "ok", true, false⟩).audioRemains
      = false :=
  ⟨c4_cleanup.1 _,
   c4_cleanup.2.1 _ rfl rfl rfl rfl (by decide) (by decide),
   c4_cleanup.2.2 _ rfl rfl rfl (by decide)⟩

/-- C5: the single-threaded branch of `batch_convert` invokes the converter
on the tasks one by one in enumeration order (its result sequence is the
map of the converter over the task list), and the final success/failed
tallies are invariant under the completion order of the worker pool: any
permutation of the task list — the pool reports results in arbitrary
completion order via `as_completed` — yields the same tallies as the
sequential run. -/
theorem c5_tally_order_independent :
    (∀ (oracle : VideoFile → Bool × String) (tasks : List VideoFile),
      seqTrace oracle tasks = tasks.map oracle)
    ∧ (∀ (oracle : VideoFile → Bool × String)
        (tasks completionOrder : List VideoFile),
        completionOrder.Perm tasks →
        seqTally oracle completionOrder = seqTally oracle tasks) := by
  constructor
  · intro oracle tasks
    induction tasks with
    | nil => rfl
    | cons j js ih => simp [seqTrace, ih]
  · intro oracle tasks completionOrder hp
    apply Prod.ext_iff.mpr
    constructor
    · rw [seqTally_fst, seqTally_fst]
      exact hp.countP_eq _
    · rw [seqTally_snd, seqTally_snd]
      exact hp.countP_eq _

/-- C5 witness: swapping the completion order of two concrete tasks leaves
the tallies unchanged. -/
theorem c5_witness :
    ([⟨[], "b", ".mp4"⟩, ⟨[], "a", ".mp4"⟩] : List VideoFile).Perm
        [⟨[], "a", ".mp4"⟩, ⟨[], "b", ".mp4"⟩] ∧
    seqTally (fun f => (f.stem == "a", "m"))
        [⟨[], "b", ".mp4"⟩, ⟨[], "a", ".mp4"⟩] =
      seqTally (fun f => (f.stem == "a", "m"))
        [⟨[], "a", ".mp4"⟩, ⟨[], "b", ".mp4"⟩] :=
  ⟨List.Perm.swap _ _ _,
   c5_tally_order_independent.2 _ _ _ (List.Perm.swap _ _ _)⟩

/-- C6: a job whose ffmpeg invocation exceeds the timeout is classified a
failure whose message contains the timeout marker "超时", and the tally over
the whole batch still accounts for every other task: the jobs before and
after the timed-out one contribute their own success/failed counts
unchanged, with exactly one extra failure for the timed-out job. -/
theorem c6_timeout_failure_isolated :
    ∀ (fmt vp ap : String) (envs : VideoFile → ConvEnv)
      (l1 l2 : List VideoFile) (t : VideoFile),
      (envs t).videoExists = true →
      (AUDIO_FORMATS.lookup fmt).isSome = true →
      (envs t).proc = .timedOut →
      (convertVideoToAudio fmt vp ap true (envs t)).1 = false ∧
      strContainsSub (convertVideoToAudio fmt vp ap true (envs t)).2 ("超时")
        = true ∧
      seqTally (fun f => convertVideoToAudio fmt vp ap true (envs f))
          (l1 ++ t :: l2) =
        ((seqTally (fun f => convertVideoToAudio fmt vp ap true (envs f)) l1).1
           + (seqTally (fun f => convertVideoToAudio fmt vp ap true (envs f))
              l2).1,
         (seqTally (fun f => convertVideoToAudio fmt vp ap true (envs f)) l1).2
           + (seqTally (fun f => convertVideoToAudio fmt vp ap true (envs f))
              l2).2 + 1) := by
  intro fmt vp ap envs l1 l2 t hv hf hp
  have hres : convertVideoToAudio fmt vp ap true (envs t) =
      (false, "转换超时 (超过1小时)") := by
    rcases h : AUDIO_FORMATS.lookup fmt with _ | g
    · rw [h] at hf
      simp at hf
    · simp [convertVideoToAudio, hv, h, hp]
  have ht : seqTally (fun f => convertVideoToAudio fmt vp ap true (envs f))
      (t :: l2) =
      ((seqTally (fun f => convertVideoToAudio fmt vp ap true (envs f)) l2).1,
       (seqTally (fun f => convertVideoToAudio fmt vp ap true (envs f)) l2).2
         + 1) := by
    simp only [seqTally]
    simp [hres]
  refine ⟨by rw [hres], by rw [hres]; decide, ?_⟩
  rw [seqTally_append, ht]
  rfl

/-- C6 witness: a three-file batch whose middle job times out reports that
job as the only failure (message containing "超时") while the two other
jobs are still tallied. -/
theorem c6_witness :
    (convertVideoToAudio ("mp3") ("v") ("a") true
        ⟨true, false, .timedOut, false, 0⟩).1 = false ∧
    strContainsSub (convertVideoToAudio ("mp3") ("v") ("a") true
        ⟨true, false, .timedOut, false, 0⟩).2 ("超时") = true ∧
    seqTally (fun _ => convertVideoToAudio ("mp3") ("v") ("a") true
          ⟨true, false, .timedOut, false, 0⟩)
        ([⟨[], "x", ".mp4"⟩] ++ ⟨[], "t", ".avi"⟩ :: [⟨[], "y", ".mp4"⟩]) =
      ((seqTally (fun _ => convertVideoToAudio ("mp3") ("v") ("a") true
            ⟨true, false, .timedOut, false, 0⟩) [⟨[], "x", ".mp4"⟩]).1
         + (seqTally (fun _ => convertVideoToAudio ("mp3") ("v") ("a") true
            ⟨true, false, .timedOut, false, 0⟩) [⟨[], "y", ".mp4"⟩]).1,
       (seqTally (fun _ => convertVideoToAudio ("mp3") ("v") ("a") true
            ⟨true, false, .timedOut, false, 0⟩) [⟨[], "x", ".mp4"⟩]).2
         + (seqTally (fun _ => convertVideoToAudio ("mp3") ("v") ("a") true
            ⟨true, false, .timedOut, false, 0⟩) [⟨[], "y", ".mp4"⟩]).2 + 1) :=
  c6_timeout_failure_isolated ("mp3") ("v") ("a")
    (fun _ => ⟨true, false, .timedOut, false, 0⟩) _ _ _ rfl (by decide) rfl

/-- C7 counterexample: a regular file with extension ".mP4" — which equals
".mp4" case-insensitively and whose lowercasing is in vid_compresser's
allow-list up to case — is not selected by `compress_mp4_files`, because
that script compares the literal extension against the three spellings
".mp4"/".MP4"/".Mp4" without lowercasing. -/
theorem c7_counterexample :
    selectVidCompressFile ⟨true, ".mP4"⟩ = false ∧
    strLower (".mP4") = strLower (".mp4") ∧
    strLower (".mP4") ∈ vidCompressExtensions.map strLower := by
  decide

/-- C7 amended: video2audio's enumerator selects a file iff its lowercased
suffix is in `SUPPORTED_VIDEO_FORMATS` (case-insensitive, as claimed), and
audio_compresser's enumerator selects iff the lowercased extension is in
its audio allow-list; but vid_compresser's enumerator selects iff the
literal extension is one of ".mp4"/".MP4"/".Mp4" — a case-sensitive
comparison that misses other casings. -/
theorem c7_extension_selection :
    (∀ e : FsEntry, selectVideoFile e = true ↔
        (e.isFile = true ∧ strLower e.suffix ∈ SUPPORTED_VIDEO_FORMATS))
    ∧ (∀ e : FsEntry, selectAudioCompressFile e = true ↔
        (e.isFile = true ∧ strLower e.suffix ∈ audioCompressExtensions))
    ∧ (∀ e : FsEntry, selectVidCompressFile e = true ↔
        (e.isFile = true ∧ e.suffix ∈ vidCompressExtensions)) := by
  refine ⟨fun e => ?_, fun e => ?_, fun e => ?_⟩ <;>
    simp [selectVideoFile, selectAudioCompressFile, selectVidCompressFile,
      List.contains, List.elem_iff] <;>
    tauto

/-- C8: the destination path computed by `batch_convert` is a function of
the source's relative directory and stem together with the profile
extension and the structure flag: two sources agreeing on those
(regardless of their own extensions) get identical destinations, so
repeated runs with identical inputs produce identical destination paths. -/
theorem c8_dest_deterministic :
    ∀ (outRoot : List String) (keep : Bool) (fmtExt : String)
      (f g : VideoFile), f.dirs = g.dirs → f.stem = g.stem →
      destPath outRoot keep fmtExt f = destPath outRoot keep fmtExt g := by
  intro outRoot keep fmtExt f g hd hs
  simp [destPath, hd, hs]

/-- C8 witness: two sources with the same relative location and stem but
different extensions map to the same destination. -/
theorem c8_witness :
    destPath (["o"]) true (".mp3") ⟨["d"], "x", ".mp4"⟩ =
      destPath (["o"]) true (".mp3") ⟨["d"], "x", ".avi"⟩ :=
  c8_dest_deterministic _ _ _ _ _ rfl rfl

/-- C9 counterexample: two distinct enumerated files, x.mp4 and x.avi in
the same directory, receive the same destination x.mp3 — destination paths
are not pairwise distinct across distinct jobs. -/
theorem c9_counterexample :
    (⟨[], "x", ".mp4"⟩ : VideoFile) ≠ (⟨[], "x", ".avi"⟩ : VideoFile) ∧
    destPath (["out"]) false (".mp3") ⟨[], "x", ".mp4"⟩ =
      destPath (["out"]) false (".mp3") ⟨[], "x", ".avi"⟩ := by
  decide

/-- C9 amended: two jobs collide on their destination exactly when their
stems agree and, when structure preservation is on, their relative
directories agree; so distinctness of destinations holds only for jobs
with distinct stems (flattened) or distinct directory-plus-stem
(structure-preserving) — distinct sources differing only in extension do
collide. -/
theorem c9_dest_collision :
    ∀ (outRoot : List String) (keep : Bool) (fmtExt : String)
      (f g : VideoFile),
      destPath outRoot keep fmtExt f = destPath outRoot keep fmtExt g ↔
        (f.stem = g.stem ∧ (keep = true → f.dirs = g.dirs)) := by
  intro outRoot keep fmtExt f g
  cases keep with
  | false =>
    simp only [destPath]
    rw [if_neg (by simp), if_neg (by simp)]
    constructor
    · intro h
      have h1 := List.append_cancel_left h
      have h2 : f.stem ++ fmtExt = g.stem ++ fmtExt := by
        simpa using h1
      exact ⟨strAppendCancel _ _ _ h2, by simp⟩
    · rintro ⟨hs, _⟩
      rw [hs]
  | true =>
    simp only [destPath]
    rw [if_pos trivial, if_pos trivial]
    constructor
    · intro h
      rw [List.append_assoc, List.append_assoc] at h
      have h1 := List.append_cancel_left h
      have h2 := concatCompCancel _ _ _ _ h1
      exact ⟨strAppendCancel _ _ _ h2.2, fun _ => h2.1⟩
    · rintro ⟨hs, hd⟩
      rw [hs, hd trivial]

/-- C10: whenever at least one video file was enumerated, the statistics
returned by `batch_convert` satisfy success + failed + skipped = total, and
the no_audio counter — initialized to 0 and never incremented — is 0. -/
theorem c10_stats_accounting :
    ∀ (outRoot : List String) (keep : Bool) (fmtExt : String) (ow : Bool)
      (destEx : List String → Bool) (oracle : VideoFile → Bool × String)
      (files : List VideoFile), files ≠ [] →
      (batchStats outRoot keep fmtExt ow destEx oracle files).success +
          (batchStats outRoot keep fmtExt ow destEx oracle files).failed +
          (batchStats outRoot keep fmtExt ow destEx oracle files).skipped =
        (batchStats outRoot keep fmtExt ow destEx oracle files).total ∧
      (batchStats outRoot keep fmtExt ow destEx oracle files).no_audio = 0 := by
  intro outRoot keep fmtExt ow destEx oracle files _
  constructor
  · have h1 := buildJobs_add outRoot keep fmtExt ow destEx files
    have h2 := seqTally_add oracle
      (buildJobs outRoot keep fmtExt ow destEx files).2
    simp only [batchStats]
    omega
  · rfl

/-- C10 witness: a concrete one-file run satisfies the accounting
invariant. -/
theorem c10_witness :
    (batchStats (["o"]) false (".mp3") true (fun _ => false)
          (fun _ => (true, "ok")) [⟨[], "a", ".mp4"⟩]).success +
        (batchStats (["o"]) false (".mp3") true (fun _ => false)
          (fun _ => (true, "ok")) [⟨[], "a", ".mp4"⟩]).failed +
        (batchStats (["o"]) false (".mp3") true (fun _ => false)
          (fun _ => (true, "ok")) [⟨[], "a", ".mp4"⟩]).skipped =
      (batchStats (["o"]) false (".mp3") true (fun _ => false)
          (fun _ => (true, "ok")) [⟨[], "a", ".mp4"⟩]).total ∧
    (batchStats (["o"]) false (".mp3") true (fun _ => false)
          (fun _ => (true, "ok")) [⟨[], "a", ".mp4"⟩]).no_audio = 0 :=
  c10_stats_accounting _ _ _ _ _ _ _ (by decide)
